import Mathlib

/-!
Shallow embedding of the module lifecycle and economy engine of
`mln/models/module.py` (class `Module`), together with the static
configuration tables it reads (`ModuleInfo`, `ModuleSetupCost`,
`ModuleExecutionCost`, `ModuleGuestYield`, `ModuleOwnerYield`,
`ModuleMessage`, `ModuleHarvestYield`, arcade prizes) and the dynamic
state it mutates (profiles, inventories, friendships, sent messages).

Conventions of the embedding:
- Machine state (`World`) is threaded explicitly; a Python method that can
  raise is embedded as a function returning `Except Err A × World`, where
  the returned `World` is the state as mutated up to the raise point
  (Python exceptions do not undo earlier writes in the same call).
- Timestamps and durations are integer microsecond counts (`Int`), the
  resolution of Python `datetime`/`timedelta`; `divmod` on timedelta is
  floor division on microseconds (`Int.fdiv`/`Int.fmod`).
- Random draws are oracles passed in explicitly: `rolls : Nat → ℚ` models
  the successive `random.random()` values in [0,1), `picks : Nat → Nat`
  models the index chosen by `random.choice`, and arcade `chance : Nat`
  models `random.randrange(100)`.
- Database rows of the static tables are lists keyed by module item id.
-/

abbrev UserId := Nat
abbrev ItemId := Nat

/-- The `ModuleEditorType` enumeration, with exactly the members referenced by
`module.py` (the registry at lines 205–231 plus `TRADE` used in
`is_setupable`). -/
inductive ModuleEditorType where
  | CONCERT_I_ARCADE | CONCERT_II_ARCADE | DELIVERY_ARCADE | DESTRUCTOID_ARCADE
  | DR_INFERNO_ROBOT_SIM | FACTORY_GENERIC | FACTORY_NON_GENERIC | FRIEND_SHARE
  | FRIENDLY_FELIX_CONCERT | GALLERY_GENERIC | GALLERY_NON_GENERIC | GENERIC
  | GROUP_PERFORMANCE | HOP_ARCADE | LOOP_SHOPPE | NETWORKER_PIC | NETWORKER_TEXT
  | NETWORKER_TRADE | PLASTIC_PELLET_INDUCTOR | ROCKET_GAME | SOUNDTRACK | STICKER
  | STICKER_SHOPPE | TRADE | TRIO_PERFORMANCE
deriving DecidableEq

/-- The settings classes appearing in the registry `module_settings_classes`
(`module.py` lines 201–231). Only membership of `ModuleSetupTrade` is ever
tested by the engine (`setup`/`teardown`). -/
inductive SettingsClass where
  | ModuleSaveConcertArcade | ModuleSaveDeliveryArcade | ModuleSaveDestructoidArcade
  | ModuleSaveGeneric | ModuleSaveHopArcade | ModuleSaveNetworkerPic
  | ModuleSaveNetworkerText | ModuleSaveRocketGame | ModuleSaveSoundtrack
  | ModuleSaveSticker | ModuleSaveUGC | ModuleSetupFriendShare
  | ModuleSetupGroupPerformance | ModuleSetupTrade | ModuleSetupTrioPerformance
deriving DecidableEq

/-- The settings class registry, a literal transcription of
`module_settings_classes` (`module.py` lines 205–231). -/
def module_settings_classes : ModuleEditorType → List SettingsClass
  | .CONCERT_I_ARCADE => [.ModuleSaveConcertArcade]
  | .CONCERT_II_ARCADE => [.ModuleSaveConcertArcade]
  | .DELIVERY_ARCADE => [.ModuleSaveDeliveryArcade]
  | .DESTRUCTOID_ARCADE => [.ModuleSaveDestructoidArcade]
  | .DR_INFERNO_ROBOT_SIM => [.ModuleSaveDestructoidArcade]
  | .FACTORY_GENERIC => [.ModuleSaveGeneric, .ModuleSaveUGC]
  | .FACTORY_NON_GENERIC => [.ModuleSaveUGC]
  | .FRIEND_SHARE => [.ModuleSaveGeneric, .ModuleSetupFriendShare]
  | .FRIENDLY_FELIX_CONCERT => [.ModuleSaveConcertArcade]
  | .GALLERY_GENERIC => [.ModuleSaveGeneric, .ModuleSaveUGC]
  | .GALLERY_NON_GENERIC => [.ModuleSaveUGC]
  | .GENERIC => [.ModuleSaveGeneric]
  | .GROUP_PERFORMANCE => [.ModuleSaveGeneric, .ModuleSetupGroupPerformance]
  | .HOP_ARCADE => [.ModuleSaveHopArcade]
  | .LOOP_SHOPPE => [.ModuleSaveGeneric, .ModuleSetupTrade]
  | .NETWORKER_PIC => [.ModuleSaveNetworkerPic]
  | .NETWORKER_TEXT => [.ModuleSaveGeneric, .ModuleSaveNetworkerText]
  | .NETWORKER_TRADE => [.ModuleSaveGeneric, .ModuleSetupTrade]
  | .PLASTIC_PELLET_INDUCTOR => [.ModuleSaveUGC]
  | .ROCKET_GAME => [.ModuleSaveSticker, .ModuleSaveRocketGame]
  | .SOUNDTRACK => [.ModuleSaveGeneric, .ModuleSaveSoundtrack]
  | .STICKER => [.ModuleSaveSticker]
  | .STICKER_SHOPPE => [.ModuleSaveGeneric, .ModuleSetupTrade]
  | .TRADE => [.ModuleSaveGeneric, .ModuleSetupTrade]
  | .TRIO_PERFORMANCE => [.ModuleSaveGeneric, .ModuleSetupTrioPerformance]

/-- Modelled from the spec: friendship status enumeration of
`mln/models/dynamic.py` (not under src); only the accepted state
(`FRIEND`) is referenced by the engine. -/
inductive FriendshipStatus where
  | PENDING | FRIEND | BLOCKED
deriving DecidableEq

/-- Row of `ModuleHarvestYield` (static yield-rate configuration). -/
structure ModuleHarvestYield where
  yield_item_id : ItemId
  yield_per_day : Nat
  max_yield : Nat
  clicks_per_yield : Nat
deriving DecidableEq

/-- Row of `ModuleSetupCost`. -/
structure ModuleSetupCost where
  item_id : ItemId
  qty : Nat
deriving DecidableEq

/-- Row of `ModuleExecutionCost`. -/
structure ModuleExecutionCost where
  item_id : ItemId
  qty : Nat
deriving DecidableEq

/-- Row of `ModuleGuestYield` (probability is a percentage). -/
structure ModuleGuestYield where
  item_id : ItemId
  qty : Nat
  probability : Nat
deriving DecidableEq

/-- Row of `ModuleOwnerYield` (probability is a percentage). -/
structure ModuleOwnerYield where
  item_id : ItemId
  qty : Nat
  probability : Nat
deriving DecidableEq

/-- Row of `ModuleMessage` (friend-message probability table); `message`
is the id of the message template sent by `send_template`. -/
structure ModuleMessage where
  message : Nat
  probability : Nat
deriving DecidableEq

/-- Row of the arcade prize table (`self.guest_yields.all()` in
`select_arcade_prize`; `ArcadePrize` in the static models). -/
structure ArcadePrize where
  item_id : ItemId
  qty : Nat
  success_rate : Nat
deriving DecidableEq

/-- The part of `ModuleInfo` read by the engine (`editor_type`, which may
be NULL per `get_settings_classes`). -/
structure ModuleInfo where
  editor_type : Option ModuleEditorType
deriving DecidableEq

/-- The static configuration tables, keyed by module item id, exactly the
queries `module.py` issues against the static models. -/
structure Static where
  moduleInfo : ItemId → ModuleInfo
  harvestYield : ItemId → Option ModuleHarvestYield
  setupCosts : ItemId → List ModuleSetupCost
  executionCosts : ItemId → List ModuleExecutionCost
  guestYields : ItemId → List ModuleGuestYield
  ownerYields : ItemId → List ModuleOwnerYield
  moduleMessages : ItemId → List ModuleMessage
  arcadePrizes : ItemId → List ArcadePrize

/-- The persisted fields of a `Module` row (`module.py` lines 21–28),
plus the per-module `ModuleSetupTrade` settings row (give item and
quantity) if one exists. -/
structure ModuleState where
  item_id : ItemId
  owner : UserId
  pos_x : Option Nat
  pos_y : Option Nat
  last_harvest_time : Int
  clicks_since_last_harvest : Nat
  total_clicks : Nat
  is_setup : Option Bool
  setup_trade : Option (ItemId × Nat)
deriving DecidableEq

/-- The per-user profile fields read or written by the engine. -/
structure Profile where
  available_votes : Int
  is_networker : Bool
deriving DecidableEq

/-- A `Friendship` row (direction matters: `incoming_friendships` are those
with `to_user` = owner, `outgoing_friendships` those with `from_user` = owner). -/
structure Friendship where
  from_user : UserId
  to_user : UserId
  status : FriendshipStatus
deriving DecidableEq

/-- Inventories: per-user, per-item quantities. -/
abbrev Inventories := UserId → ItemId → Int

/-- The mutable world state: the module under consideration plus all user
state it touches. `messages` records `send_template` calls as
(template id, sender, recipient) triples. -/
structure World where
  module : ModuleState
  profiles : UserId → Profile
  friendships : List Friendship
  inventories : Inventories
  messages : List (Nat × UserId × UserId)

/-- The error outcomes of the engine's operations. `attributeError` is
Python's AttributeError (raised by `setup` because `Module` has no method
named by line 114); `indexError` is the IndexError from `random.choice`
on an empty sequence; `doesNotExist` is a failed `.objects.get`;
`zeroDivisionError` comes from `divmod` by a zero timedelta. -/
inductive Err where
  | selfInteraction
  | noVotesLeft
  | notSetup
  | insufficientInventory
  | indexError
  | attributeError
  | prizeTableMisconfigured
  | doesNotExist
  | zeroDivisionError
deriving DecidableEq

instance {ε α : Type} [DecidableEq ε] [DecidableEq α] : DecidableEq (Except ε α) := fun a b =>
  match a, b with
  | Except.ok x, Except.ok y =>
    if h : x = y then Decidable.isTrue (by rw [h])
    else Decidable.isFalse (by intro he; cases he; exact h rfl)
  | Except.error x, Except.error y =>
    if h : x = y then Decidable.isTrue (by rw [h])
    else Decidable.isFalse (by intro he; cases he; exact h rfl)
  | Except.ok _, Except.error _ => Decidable.isFalse (by intro he; cases he)
  | Except.error _, Except.ok _ => Decidable.isFalse (by intro he; cases he)

/-- Modelled from the spec: the inventory ledger's
`add_inv_item(user, item, qty)` (`mln/services/inventory.py`, not under
src) — adds `qty` to the user's balance of the item. -/
def add_inv_item (inv : Inventories) (u : UserId) (i : ItemId) (qty : Int) : Inventories :=
  fun u2 i2 => if u2 = u ∧ i2 = i then inv u2 i2 + qty else inv u2 i2

/-- Modelled from the spec: the inventory ledger's
`remove_inv_item(user, item, qty)` (`mln/services/inventory.py`, not under
src) — fails with an insufficient-quantity error if the balance would go
negative, otherwise subtracts. -/
def remove_inv_item (inv : Inventories) (u : UserId) (i : ItemId) (qty : Int) : Option Inventories :=
  if inv u i - qty < 0 then none
  else some (fun u2 i2 => if u2 = u ∧ i2 = i then inv u2 i2 - qty else inv u2 i2)

/-- Embeds `Module.get_info` (line 42): the `ModuleInfo` row for the module's item. -/
def get_info (cfg : Static) (m : ModuleState) : ModuleInfo :=
  cfg.moduleInfo m.item_id

/-- Embeds `Module.is_setupable` (lines 46–47): editor type is TRADE, or a setup
cost row exists for the item. -/
def is_setupable (cfg : Static) (m : ModuleState) : Prop :=
  (get_info cfg m).editor_type = some ModuleEditorType.TRADE ∨
    cfg.setupCosts m.item_id ≠ []

instance (cfg : Static) (m : ModuleState) : Decidable (is_setupable cfg m) := by
  unfold is_setupable
  exact inferInstance

/-- Embeds `Module.save` (lines 36–40): before persisting, replace a `False`
setup state by `None` when the module cannot be set up at all. -/
def saveFix (cfg : Static) (m : ModuleState) : ModuleState :=
  if ¬ is_setupable cfg m ∧ m.is_setup = some false then
    { m with is_setup := none }
  else m

/-- Embeds `Module.is_clickable` (lines 88–90): `is_setup is None or is_setup is True`. -/
def is_clickable (m : ModuleState) : Prop :=
  m.is_setup = none ∨ m.is_setup = some true

instance (m : ModuleState) : Decidable (is_clickable m) := by
  unfold is_clickable
  exact inferInstance

/-- Embeds `Module.get_settings_classes` (lines 194–199). -/
def get_settings_classes (cfg : Static) (m : ModuleState) : List SettingsClass :=
  match (get_info cfg m).editor_type with
  | none => []
  | some et => module_settings_classes et

/-- Modelled from the spec: `DAY` (`mln/models/dynamic.py`, not under src): one day as a Python
timedelta, in microseconds. -/
def DAY_USEC : Nat := 86400000000

/-- Python's `timedelta.__truediv__(int)`: divide the microsecond count and
round to the nearest integer, ties to even (`_divide_and_round` in the
CPython datetime module). -/
def divide_and_round (n d : Nat) : Nat :=
  let q := n / d
  let r := n % d
  if 2 * r < d then q
  else if d < 2 * r then q + 1
  else if q % 2 = 0 then q
  else q + 1

/-- Embeds `Module._calc_yield_info` (lines 49–68). Returns
`(final_yield, time_remainder, click_remainder)`; `none` models the
ZeroDivisionError raised when `DAY / yield_per_day` rounds to a zero
timedelta. Time quantities are microsecond counts; `divmod` on timedeltas
is floor division. -/
def calc_yield_info (cfg : Static) (m : ModuleState) (tNow : Int) :
    Option (Int × Int × Nat) :=
  if is_setupable cfg m ∧ m.is_setup ≠ some true then some (0, 0, 0)
  else
    match cfg.harvestYield m.item_id with
    | none => some (0, 0, 0)
    | some yi =>
      let time_since_harvest : Int := tNow - m.last_harvest_time
      let tPart : Option (Int × Int) :=
        if yi.yield_per_day = 0 then some (0, time_since_harvest)
        else
          let unit : Nat := divide_and_round DAY_USEC yi.yield_per_day
          if unit = 0 then none
          else some (Int.fdiv time_since_harvest unit, Int.fmod time_since_harvest unit)
      match tPart with
      | none => none
      | some (time_yield, time_remainder) =>
        let cPart : Nat × Nat :=
          if yi.clicks_per_yield = 0 then (0, m.clicks_since_last_harvest)
          else (m.clicks_since_last_harvest / yi.clicks_per_yield,
                m.clicks_since_last_harvest % yi.clicks_per_yield)
        some (min (time_yield + (cPart.1 : Int)) (yi.max_yield : Int),
              time_remainder, cPart.2)

/-- Embeds `Module.get_yield_item_id` (lines 84–86): `.objects.get` raises
`DoesNotExist` when no yield row exists, modelled by `none`. -/
def get_yield_item_id (cfg : Static) (m : ModuleState) : Option ItemId :=
  (cfg.harvestYield m.item_id).map (fun yi => yi.yield_item_id)

/-- The eligible-friend list of `Module._get_random_friend` (lines 70–78):
accepted incoming friendships with a non-networker `from_user`, then
accepted outgoing friendships with a non-networker `to_user`. -/
def eligible_friends (w : World) : List UserId :=
  let incoming := w.friendships.filter fun f =>
    f.to_user = w.module.owner ∧ f.status = FriendshipStatus.FRIEND ∧
      (w.profiles f.from_user).is_networker = false
  let outgoing := w.friendships.filter fun f =>
    f.from_user = w.module.owner ∧ f.status = FriendshipStatus.FRIEND ∧
      (w.profiles f.to_user).is_networker = false
  incoming.map (fun f => f.from_user) ++ outgoing.map (fun f => f.to_user)

/-- Embeds `Module._get_random_friend` (lines 70–78): `random.choice(friends)`.
`pick` is the random index oracle; on an empty list `random.choice`
raises IndexError, modelled by `none`. -/
def get_random_friend (w : World) (pick : Nat) : Option UserId :=
  let friends := eligible_friends w
  friends.get? (pick % friends.length)

/-- Embeds `Module.harvest` (lines 92–103): compute yield, credit the owner with
the yielded item (the item id lookup `get_yield_item_id` raises
`DoesNotExist` when no yield row exists — evaluated after the yield
computation but before any mutation), then rewrite the accrual state and
set `is_setup = False` before saving. -/
def harvest (cfg : Static) (w : World) (tNow : Int) : Except Err Unit × World :=
  match calc_yield_info cfg w.module tNow with
  | none => (Except.error Err.zeroDivisionError, w)
  | some (harvest_qty, time_remainder, click_remainder) =>
    match cfg.harvestYield w.module.item_id with
    | none => (Except.error Err.doesNotExist, w)
    | some yi =>
      let inv := add_inv_item w.inventories w.module.owner yi.yield_item_id harvest_qty
      let m := { w.module with
        last_harvest_time := tNow - time_remainder,
        clicks_since_last_harvest := click_remainder,
        is_setup := some false }
      (Except.ok (), { w with inventories := inv, module := saveFix cfg m })

/-- Embeds `Module.setup` (lines 105–125). After the `if self.is_setup: return`
early exit, line 114 evaluates `self._needs_setup()`; `Module` defines no
method or attribute of that name anywhere in the repository, so Python
raises AttributeError before any further statement runs — the cost
consumption at lines 116–125 is unreachable. -/
def setup (cfg : Static) (w : World) : Except Err Unit × World :=
  if w.module.is_setup = some true then (Except.ok (), w)
  else (Except.error Err.attributeError, w)

/-- Add each `ModuleSetupCost` row to a user's inventory, in list order
(the refund loop of `teardown`, lines 135–136). -/
def add_setup_costs (u : UserId) : List ModuleSetupCost → Inventories → Inventories
  | [], inv => inv
  | c :: rest, inv => add_setup_costs u rest (add_inv_item inv u c.item_id (c.qty : Int))

/-- Embeds `Module.teardown` (lines 127–138): no-op unless set up; refund either
the trade give-item or each setup-cost row, then clear `is_setup` and save. -/
def teardown (cfg : Static) (w : World) : Except Err Unit × World :=
  if ¬ w.module.is_setup = some true then (Except.ok (), w)
  else if SettingsClass.ModuleSetupTrade ∈ get_settings_classes cfg w.module then
    match w.module.setup_trade with
    | none => (Except.error Err.doesNotExist, w)
    | some trade =>
      let inv := add_inv_item w.inventories w.module.owner trade.1 (trade.2 : Int)
      let m2 := saveFix cfg { w.module with is_setup := some false }
      (Except.ok (), { w with inventories := inv, module := m2 })
  else
    let inv := add_setup_costs w.module.owner (cfg.setupCosts w.module.item_id) w.inventories
    let m2 := saveFix cfg { w.module with is_setup := some false }
    (Except.ok (), { w with inventories := inv, module := m2 })

/-- Embeds `Module._update_clicks` (lines 140–152): reject self-clicks, exhausted
vote allowances, and modules that are not clickable; otherwise decrement
the clicker's votes and increment both click counters, saving both rows. -/
def update_clicks (cfg : Static) (w : World) (clicker : UserId) :
    Except Err Unit × World :=
  if clicker = w.module.owner then (Except.error Err.selfInteraction, w)
  else if (w.profiles clicker).available_votes ≤ 0 then (Except.error Err.noVotesLeft, w)
  else if ¬ is_clickable w.module then (Except.error Err.notSetup, w)
  else
    let profiles2 := fun u =>
      if u = clicker then
        { (w.profiles u) with available_votes := (w.profiles u).available_votes - 1 }
      else w.profiles u
    let m := { w.module with
      clicks_since_last_harvest := w.module.clicks_since_last_harvest + 1,
      total_clicks := w.module.total_clicks + 1 }
    (Except.ok (), { w with profiles := profiles2, module := saveFix cfg m })

/-- The execution-cost loop of `_distribute_items` (lines 156–157): remove
each cost row from the clicker's inventory in order. Returns `false`
together with the partially mutated inventories when a removal fails
(the earlier removals are not undone by the raised error). -/
def remove_exec_costs (u : UserId) : List ModuleExecutionCost → Inventories →
    Bool × Inventories
  | [], inv => (true, inv)
  | c :: rest, inv =>
    match remove_inv_item inv u c.item_id (c.qty : Int) with
    | none => (false, inv)
    | some inv2 => remove_exec_costs u rest inv2

/-- The guest-yield loop of `_distribute_items` (lines 158–161): one roll
per row; on success credit the clicker. `k` is the index of the next roll. -/
def roll_guest_yields (target : UserId) (rolls : Nat → ℚ) :
    Nat → List ModuleGuestYield → Inventories → Inventories
  | _, [], inv => inv
  | k, y :: rest, inv =>
    let inv2 := if rolls k < Rat.divInt (y.probability : Int) 100 then
        add_inv_item inv target y.item_id (y.qty : Int)
      else inv
    roll_guest_yields target rolls (k + 1) rest inv2

/-- The owner-yield loop of `_distribute_items` (lines 162–164): one roll
per row; on success credit the module owner. -/
def roll_owner_yields (target : UserId) (rolls : Nat → ℚ) :
    Nat → List ModuleOwnerYield → Inventories → Inventories
  | _, [], inv => inv
  | k, y :: rest, inv =>
    let inv2 := if rolls k < Rat.divInt (y.probability : Int) 100 then
        add_inv_item inv target y.item_id (y.qty : Int)
      else inv
    roll_owner_yields target rolls (k + 1) rest inv2

/-- The friend-message loop of `_distribute_items` (lines 165–168): one
roll per row; on success pick a random friend (IndexError when the pool is
empty — returns `false` with the messages sent so far) and send the
template from the owner. -/
def roll_messages (w : World) (rolls : Nat → ℚ) (picks : Nat → Nat) :
    Nat → List ModuleMessage → List (Nat × UserId × UserId) →
    Bool × List (Nat × UserId × UserId)
  | _, [], msgs => (true, msgs)
  | k, fm :: rest, msgs =>
    if rolls k < Rat.divInt (fm.probability : Int) 100 then
      match get_random_friend w (picks k) with
      | none => (false, msgs)
      | some friend =>
        roll_messages w rolls picks (k + 1) rest
          (msgs ++ [(fm.message, w.module.owner, friend)])
    else roll_messages w rolls picks (k + 1) rest msgs

/-- Embeds `Module._distribute_items` (lines 154–169): execution costs, then the
three probabilistic reward loops, sharing one sequential stream of
`random.random()` draws. Returns the last guest-yield row of the table
(the loop variable after the `for`), independent of the rolls. -/
def distribute_items (cfg : Static) (w : World) (clicker : UserId)
    (rolls : Nat → ℚ) (picks : Nat → Nat) :
    Except Err (Option ModuleGuestYield) × World :=
  match remove_exec_costs clicker (cfg.executionCosts w.module.item_id) w.inventories with
  | (false, invP) => (Except.error Err.insufficientInventory, { w with inventories := invP })
  | (true, inv1) =>
    let gys := cfg.guestYields w.module.item_id
    let oys := cfg.ownerYields w.module.item_id
    let fms := cfg.moduleMessages w.module.item_id
    let inv2 := roll_guest_yields clicker rolls 0 gys inv1
    let inv3 := roll_owner_yields w.module.owner rolls gys.length oys inv2
    match roll_messages w rolls picks (gys.length + oys.length) fms w.messages with
    | (false, msgsP) =>
      (Except.error Err.indexError, { w with inventories := inv3, messages := msgsP })
    | (true, msgs2) =>
      (Except.ok gys.getLast?, { w with inventories := inv3, messages := msgs2 })

/-- Embeds `Module.click` (lines 171–181): update clicks, distribute rewards,
then — if the module is set up and the owner is not a networker — take the
setup down without refund. -/
def click (cfg : Static) (w : World) (clicker : UserId)
    (rolls : Nat → ℚ) (picks : Nat → Nat) :
    Except Err (Option ModuleGuestYield) × World :=
  match update_clicks cfg w clicker with
  | (Except.error e, w1) => (Except.error e, w1)
  | (Except.ok _, w1) =>
    match distribute_items cfg w1 clicker rolls picks with
    | (Except.error e, w2) => (Except.error e, w2)
    | (Except.ok gy, w2) =>
      if w2.module.is_setup = some true ∧
          (w2.profiles w2.module.owner).is_networker = false then
        (Except.ok gy, { w2 with module := saveFix cfg { w2.module with is_setup := some false } })
      else (Except.ok gy, w2)

/-- Modelled from the spec: the transactional boundary of §5 — the
request wrapper that serializes and commits a click interaction (it lives
outside `mln/models/module.py` and is not under src). A click that raises
commits nothing: every write of that interaction is rolled back and the
error is surfaced to the caller. -/
def click_tx (cfg : Static) (w : World) (clicker : UserId)
    (rolls : Nat → ℚ) (picks : Nat → Nat) :
    Except Err (Option ModuleGuestYield) × World :=
  match click cfg w clicker rolls picks with
  | (Except.ok gy, w2) => (Except.ok gy, w2)
  | (Except.error e, _) => (Except.error e, w)

/-- The accumulation walk of `Module.select_arcade_prize` (lines 185–192):
running weight sum against the drawn `chance`; the first row whose
cumulative `success_rate` strictly exceeds the draw wins, and falling off
the end is the `RuntimeError`. -/
def select_arcade_prize_go (chance : Nat) : Nat → List ArcadePrize → Option ArcadePrize
  | _, [] => none
  | acc, p :: rest =>
    if acc + p.success_rate > chance then some p
    else select_arcade_prize_go chance (acc + p.success_rate) rest

/-- Embeds `Module.select_arcade_prize` (lines 183–192): draw `chance`
(`random.randrange(100)`), walk the prize table, credit the winner's item
to `user` and return the prize; raise when no prize's cumulative weight
covers the draw. -/
def select_arcade_prize (cfg : Static) (w : World) (user : UserId) (chance : Nat) :
    Except Err ArcadePrize × World :=
  match select_arcade_prize_go chance 0 (cfg.arcadePrizes w.module.item_id) with
  | some p =>
    (Except.ok p, { w with inventories := add_inv_item w.inventories user p.item_id (p.qty : Int) })
  | none => (Except.error Err.prizeTableMisconfigured, w)

/-- Modelled from the spec: module creation (§3 lifecycle; the placing
service is not under src). A new row takes the field defaults of
`module.py` lines 21–28 (`is_setup = False`, `last_harvest_time = now`)
and is persisted through `Module.save`. -/
def create_module (cfg : Static) (w : World) (item : ItemId) (owner : UserId)
    (tNow : Int) : World :=
  let m : ModuleState := {
    item_id := item, owner := owner, pos_x := none, pos_y := none,
    last_harvest_time := tNow, clicks_since_last_harvest := 0, total_clicks := 0,
    is_setup := some false, setup_trade := none }
  { w with module := saveFix cfg m }

/-- The persisting operations on a module's world, for invariant statements. -/
inductive Op where
  | create (item : ItemId) (owner : UserId) (tNow : Int)
  | setupOp
  | teardownOp
  | harvestOp (tNow : Int)
  | clickOp (clicker : UserId) (rolls : Nat → ℚ) (picks : Nat → Nat)

/-- The world after running one persisting operation (result value discarded). -/
def stepWorld (cfg : Static) (op : Op) (w : World) : World :=
  match op with
  | Op.create item owner tNow => create_module cfg w item owner tNow
  | Op.setupOp => (setup cfg w).2
  | Op.teardownOp => (teardown cfg w).2
  | Op.harvestOp tNow => (harvest cfg w tNow).2
  | Op.clickOp clicker rolls picks => (click cfg w clicker rolls picks).2

/-- The tri-state invariant of spec §3: a module whose catalog item has no
setup requirement carries the not-applicable state, never `False`. -/
def SetupInvariant (cfg : Static) (m : ModuleState) : Prop :=
  ¬ is_setupable cfg m → m.is_setup = none

instance (cfg : Static) (m : ModuleState) : Decidable (SetupInvariant cfg m) := by
  unfold SetupInvariant
  exact inferInstance

/-- Spec §4.1 steps 1–3, stated in the spec's words for comparison with
the code: the time-based yield is zero for a module that requires setup
and is not set up, zero when no yield configuration exists or
`yield_per_day` is zero, and otherwise the whole quotient of the elapsed
time by one day over `yield_per_day`. -/
def specTimeYield (cfg : Static) (m : ModuleState) (tNow : Int) : Int :=
  if is_setupable cfg m ∧ m.is_setup ≠ some true then 0
  else
    match cfg.harvestYield m.item_id with
    | none => 0
    | some yi =>
      if yi.yield_per_day = 0 then 0
      else Int.fdiv (tNow - m.last_harvest_time) (divide_and_round DAY_USEC yi.yield_per_day)

/-- Spec §4.1 steps 1, 2 and 4, stated in the spec's words: the click-based
yield is zero for a module that requires setup and is not set up, zero when
no yield configuration exists or `clicks_per_yield` is zero, and otherwise
the whole quotient of the accumulated clicks by `clicks_per_yield`. -/
def specClickYield (cfg : Static) (m : ModuleState) : Nat :=
  if is_setupable cfg m ∧ m.is_setup ≠ some true then 0
  else
    match cfg.harvestYield m.item_id with
    | none => 0
    | some yi =>
      if yi.clicks_per_yield = 0 then 0
      else m.clicks_since_last_harvest / yi.clicks_per_yield

/-- Cumulative weight of the first `i` rows of a prize table. -/
def cum_weights (ps : List ArcadePrize) (i : Nat) : Nat :=
  ((ps.take i).map fun p => p.success_rate).sum

/-- C9: for every module, every visitor state and every random oracle, a
click by the module's own owner fails with the self-interaction error and
returns the world exactly as it was — no vote, counter or inventory
change. -/
theorem click_on_own_module_self_interaction (cfg : Static) (w : World)
    (rolls : Nat → ℚ) (picks : Nat → Nat) :
    click cfg w w.module.owner rolls picks = (Except.error Err.selfInteraction, w) := by
  unfold click update_clicks
  simp

/-- C10: `select_arcade_prize` leaves the module row and all other world
state unchanged; its only effect is crediting the winning prize to the
given user (and on a misconfigured table it changes nothing at all). -/
theorem select_arcade_prize_frame (cfg : Static) (w : World) (user : UserId)
    (chance : Nat) :
    ((select_arcade_prize cfg w user chance).2.module = w.module ∧
     (select_arcade_prize cfg w user chance).2.profiles = w.profiles ∧
     (select_arcade_prize cfg w user chance).2.friendships = w.friendships ∧
     (select_arcade_prize cfg w user chance).2.messages = w.messages) ∧
    ((∃ p, (select_arcade_prize cfg w user chance).1 = Except.ok p ∧
        (select_arcade_prize cfg w user chance).2.inventories =
          add_inv_item w.inventories user p.item_id (p.qty : Int)) ∨
      (select_arcade_prize cfg w user chance).2 = w) := by
  unfold select_arcade_prize
  cases h : select_arcade_prize_go chance 0 (cfg.arcadePrizes w.module.item_id) with
  | none => simp
  | some p => simp

/-- Static configuration for the empty-friend-pool click scenario: item 1
is a clickable module (GENERIC editor, no setup costs) with a single
friend-message row of probability 100 and no other reward tables. -/
def cfgC3 : Static := {
  moduleInfo := fun _ => { editor_type := some ModuleEditorType.GENERIC },
  harvestYield := fun _ => none,
  setupCosts := fun _ => [],
  executionCosts := fun _ => [],
  guestYields := fun _ => [],
  ownerYields := fun _ => [],
  moduleMessages := fun i => if i = 1 then [{ message := 5, probability := 100 }] else [],
  arcadePrizes := fun _ => [] }

/-- Module row for the empty-friend-pool scenario. -/
def modC3 : ModuleState := {
  item_id := 1, owner := 0, pos_x := none, pos_y := none,
  last_harvest_time := 0, clicks_since_last_harvest := 0, total_clicks := 0,
  is_setup := none, setup_trade := none }

/-- World for the empty-friend-pool scenario: user 0 owns the module and
has no friendships at all; user 1 is the visitor with one vote. -/
def wC3 : World := {
  module := modC3,
  profiles := fun u => if u = 1 then { available_votes := 1, is_networker := false }
    else { available_votes := 0, is_networker := false },
  friendships := [],
  inventories := fun _ _ => 0,
  messages := [] }

/-- C3: a click whose friend-message roll succeeds while the owner has no
eligible friends does NOT complete: `random.choice` on the empty friend
list raises IndexError (`module.py` line 78 has no empty-pool guard and
lines 165–168 no handler), so the interaction fails instead of skipping
the reward — and the visitor's vote was already consumed before the
crash. -/
theorem click_empty_friend_pool_crashes :
    (click cfgC3 wC3 1 (fun _ => 0) (fun _ => 0)).1 = Except.error Err.indexError ∧
    ((click cfgC3 wC3 1 (fun _ => 0) (fun _ => 0)).2.profiles 1).available_votes = 0 := by
  constructor
  · decide
  · decide

/-- Static configuration for the setup-without-requirement scenario: item 1
is a GENERIC module with no `ModuleSetupCost` rows, so
`Module.is_setupable` is false. -/
def cfgC5 : Static := {
  moduleInfo := fun _ => { editor_type := some ModuleEditorType.GENERIC },
  harvestYield := fun _ => none,
  setupCosts := fun _ => [],
  executionCosts := fun _ => [],
  guestYields := fun _ => [],
  ownerYields := fun _ => [],
  moduleMessages := fun _ => [],
  arcadePrizes := fun _ => [] }

/-- Module row for the setup-without-requirement scenario. -/
def modC5 : ModuleState := {
  item_id := 1, owner := 0, pos_x := none, pos_y := none,
  last_harvest_time := 0, clicks_since_last_harvest := 0, total_clicks := 0,
  is_setup := none, setup_trade := none }

/-- World for the setup-without-requirement scenario: the module is in the
not-applicable setup state (which is not truthy, so `setup` does not take
the early return). -/
def wC5 : World := {
  module := modC5,
  profiles := fun _ => { available_votes := 0, is_networker := false },
  friendships := [],
  inventories := fun _ _ => 0,
  messages := [] }

/-- C5: on a module that is not set up and whose item has no setup
requirement, `setup()` raises AttributeError — line 114 calls the
undefined method `self._needs_setup()` — rather than the documented
`RuntimeError("Module is not setupable.")`; the world is unchanged. -/
theorem setup_no_requirement_raises_attribute_error :
    ¬ is_setupable cfgC5 wC5.module ∧
    setup cfgC5 wC5 = (Except.error Err.attributeError, wC5) := by
  exact ⟨by decide, rfl⟩

/-- Static configuration for the setup/teardown round-trip scenario:
item 1 is a GENERIC module with a single setup cost of 3 of item 7, so it
is setupable via the itemized-cost variant. -/
def cfgC6 : Static := {
  moduleInfo := fun _ => { editor_type := some ModuleEditorType.GENERIC },
  harvestYield := fun _ => none,
  setupCosts := fun i => if i = 1 then [{ item_id := 7, qty := 3 }] else [],
  executionCosts := fun _ => [],
  guestYields := fun _ => [],
  ownerYields := fun _ => [],
  moduleMessages := fun _ => [],
  arcadePrizes := fun _ => [] }

/-- Module row for the round-trip scenario, in the needs-setup state. -/
def modC6 : ModuleState := {
  item_id := 1, owner := 0, pos_x := none, pos_y := none,
  last_harvest_time := 0, clicks_since_last_harvest := 0, total_clicks := 0,
  is_setup := some false, setup_trade := none }

/-- World for the round-trip scenario: the module needs setup
(`is_setup = False`) and its owner (user 0) holds 5 of the cost item 7 —
more than the 3 required. -/
def wC6 : World := {
  module := modC6,
  profiles := fun _ => { available_votes := 0, is_networker := false },
  friendships := [],
  inventories := fun _ _ => 5,
  messages := [] }

/-- C6: the setup-cost/refund round-trip can never happen: even on a
setupable module in `NEEDS_SETUP` whose owner holds the required items,
`setup()` raises AttributeError at line 114 (undefined `_needs_setup`)
before consuming anything, and the subsequent `teardown()` is a no-op, so
no cost is ever consumed or refunded. -/
theorem setup_teardown_roundtrip_unreachable :
    is_setupable cfgC6 wC6.module ∧
    wC6.module.is_setup = some false ∧
    wC6.inventories wC6.module.owner 7 = 5 ∧
    setup cfgC6 wC6 = (Except.error Err.attributeError, wC6) ∧
    teardown cfgC6 wC6 = (Except.ok (), wC6) := by
  exact ⟨by decide, rfl, rfl, rfl, rfl⟩

/-- C1: whenever `_calc_yield_info` returns (does not raise), and a
yield-rate configuration exists for the item, the yield quantity is
exactly `min(time_yield + click_yield, max_yield)` in the sense of spec
§4.1, and in particular never exceeds `max_yield` (all configuration
fields are naturals, hence non-negative). -/
theorem calc_yield_eq_min_and_capped (cfg : Static) (m : ModuleState) (tNow : Int)
    (yi : ModuleHarvestYield) (hyi : cfg.harvestYield m.item_id = some yi)
    (y tr : Int) (cr : Nat)
    (h : calc_yield_info cfg m tNow = some (y, tr, cr)) :
    y = min (specTimeYield cfg m tNow + (specClickYield cfg m : Int)) (yi.max_yield : Int) ∧
    y ≤ (yi.max_yield : Int) := by
  unfold calc_yield_info at h
  unfold specTimeYield specClickYield
  by_cases hg : is_setupable cfg m ∧ m.is_setup ≠ some true
  · rw [if_pos hg] at h
    rw [if_pos hg, if_pos hg]
    simp only [Option.some.injEq, Prod.mk.injEq] at h
    obtain ⟨h1, _, _⟩ := h
    subst h1
    constructor
    · have : (0 : Int) ≤ (yi.max_yield : Int) := Int.natCast_nonneg _
      omega
    · exact Int.natCast_nonneg _
  · rw [if_neg hg] at h
    rw [if_neg hg, if_neg hg]
    rw [hyi] at h
    rw [hyi]
    dsimp only at h
    dsimp only
    by_cases hd : yi.yield_per_day = 0
    · rw [if_pos hd] at h
      rw [if_pos hd]
      dsimp only at h
      simp only [Option.some.injEq, Prod.mk.injEq] at h
      obtain ⟨h1, _, _⟩ := h
      subst h1
      constructor
      · by_cases hc : yi.clicks_per_yield = 0
        · rw [if_pos hc, if_pos hc]
        · rw [if_neg hc, if_neg hc]
      · exact min_le_right _ _
    · rw [if_neg hd] at h
      rw [if_neg hd]
      by_cases hu : divide_and_round DAY_USEC yi.yield_per_day = 0
      · rw [if_pos hu] at h
        exact absurd h (by simp)
      · rw [if_neg hu] at h
        dsimp only at h
        simp only [Option.some.injEq, Prod.mk.injEq] at h
        obtain ⟨h1, _, _⟩ := h
        subst h1
        constructor
        · by_cases hc : yi.clicks_per_yield = 0
          · rw [if_pos hc, if_pos hc]
          · rw [if_neg hc, if_neg hc]
        · exact min_le_right _ _

/-- The save fix-up never changes the item a module points at. -/
theorem saveFix_item_id (cfg : Static) (m : ModuleState) :
    (saveFix cfg m).item_id = m.item_id := by
  unfold saveFix
  split <;> rfl

/-- The save fix-up never changes the lifetime click counter. -/
theorem saveFix_total_clicks (cfg : Static) (m : ModuleState) :
    (saveFix cfg m).total_clicks = m.total_clicks := by
  unfold saveFix
  split <;> rfl

/-- The predicate `is_setupable` is untouched by the save fix-up (it reads only `item_id`). -/
theorem is_setupable_saveFix (cfg : Static) (m : ModuleState) :
    is_setupable cfg (saveFix cfg m) ↔ is_setupable cfg m := by
  unfold is_setupable get_info
  rw [saveFix_item_id]

/-- Adding zero of an item is the identity on inventories. -/
theorem add_inv_item_zero (inv : Inventories) (u : UserId) (i : ItemId) :
    add_inv_item inv u i 0 = inv := by
  funext u2 i2
  unfold add_inv_item
  split <;> simp

/-- Yield configuration for the C1 witness scenario: no time yield
(`yield_per_day = 0`), one unit per 2 clicks, capped at 10. -/
def yiC1 : ModuleHarvestYield :=
  { yield_item_id := 2, yield_per_day := 0, max_yield := 10, clicks_per_yield := 2 }

/-- Static configuration for the C1 witness scenario. -/
def cfgC1 : Static := {
  moduleInfo := fun _ => { editor_type := some ModuleEditorType.GENERIC },
  harvestYield := fun i => if i = 1 then some yiC1 else none,
  setupCosts := fun _ => [],
  executionCosts := fun _ => [],
  guestYields := fun _ => [],
  ownerYields := fun _ => [],
  moduleMessages := fun _ => [],
  arcadePrizes := fun _ => [] }

/-- Module row for the C1 witness scenario: 5 accumulated clicks. -/
def modC1 : ModuleState := {
  item_id := 1, owner := 0, pos_x := none, pos_y := none,
  last_harvest_time := 0, clicks_since_last_harvest := 5, total_clicks := 5,
  is_setup := none, setup_trade := none }

/-- Witness for C1 at a concrete input: 5 clicks at 2 clicks per unit give
yield 2 = min(0 + 2, 10), which is at most the configured cap. -/
theorem calc_yield_eq_min_and_capped_witness :
    (2 : Int) = min (specTimeYield cfgC1 modC1 0 + (specClickYield cfgC1 modC1 : Int))
      (yiC1.max_yield : Int) ∧
    (2 : Int) ≤ (yiC1.max_yield : Int) :=
  calc_yield_eq_min_and_capped cfgC1 modC1 0 yiC1 (by decide) 2 0 1 (by decide)

/-- Cumulative prize weight grows by the head's rate. -/
theorem cum_weights_succ_cons (p : ArcadePrize) (rest : List ArcadePrize) (i : Nat) :
    cum_weights (p :: rest) (i + 1) = p.success_rate + cum_weights rest i := by
  simp [cum_weights]

/-- The accumulation walk returns the first prize whose cumulative weight
strictly exceeds the draw (index form, generalized over the accumulator). -/
theorem select_go_first_exceeding (chance : Nat) :
    ∀ (ps : List ArcadePrize) (acc i : Nat) (h : i < ps.length),
      acc + cum_weights ps i ≤ chance → chance < acc + cum_weights ps (i + 1) →
      select_arcade_prize_go chance acc ps = some (ps.get ⟨i, h⟩) := by
  intro ps
  induction ps with
  | nil =>
    intro acc i h
    simp at h
  | cons p rest ih =>
    intro acc i h hle hlt
    cases i with
    | zero =>
      rw [cum_weights_succ_cons] at hlt
      have hz : cum_weights rest 0 = 0 := rfl
      rw [hz] at hlt
      unfold select_arcade_prize_go
      rw [if_pos (by omega)]
      rfl
    | succ j =>
      rw [cum_weights_succ_cons] at hle hlt
      have hj : j < rest.length := by
        simpa using Nat.lt_of_succ_lt_succ h
      unfold select_arcade_prize_go
      rw [if_neg (by omega)]
      exact ih (acc + p.success_rate) j hj (by omega) (by omega)

/-- When the total weight does not exceed the draw, the walk falls off the
end (generalized over the accumulator). -/
theorem select_go_exhausted (chance : Nat) :
    ∀ (ps : List ArcadePrize) (acc : Nat),
      acc + cum_weights ps ps.length ≤ chance →
      select_arcade_prize_go chance acc ps = none := by
  intro ps
  induction ps with
  | nil => intro acc _; rfl
  | cons p rest ih =>
    intro acc hle
    have : cum_weights (p :: rest) (p :: rest).length
        = p.success_rate + cum_weights rest rest.length := by
      rw [List.length_cons, cum_weights_succ_cons]
    rw [this] at hle
    unfold select_arcade_prize_go
    rw [if_neg (by omega)]
    exact ih (acc + p.success_rate) (by omega)

/-- The first prize of the [30, 70] example table. -/
def prize30 : ArcadePrize := { item_id := 11, qty := 1, success_rate := 30 }

/-- The second prize of the [30, 70] example table. -/
def prize70 : ArcadePrize := { item_id := 12, qty := 1, success_rate := 70 }

/-- The example table with weights [30, 70], summing to 100. -/
def prizeTable30_70 : List ArcadePrize := [prize30, prize70]

/-- The misconfigured example table with a single weight 80. -/
def prizeTable80 : List ArcadePrize := [{ item_id := 13, qty := 1, success_rate := 80 }]

/-- C8: the prize walk selects the first prize whose cumulative weight
strictly exceeds the uniform draw, crediting it to the user; if no
cumulative weight exceeds the draw the configuration error is raised; in
particular with weights [30, 70] a draw of 29 gives prize 1 and draws of
30 and 99 give prize 2, while a table summing to 80 errors on a draw
of 85. -/
theorem select_arcade_prize_first_exceeding :
    (∀ (ps : List ArcadePrize) (chance i : Nat) (h : i < ps.length),
       cum_weights ps i ≤ chance → chance < cum_weights ps (i + 1) →
       select_arcade_prize_go chance 0 ps = some (ps.get ⟨i, h⟩)) ∧
    (∀ (ps : List ArcadePrize) (chance : Nat),
       cum_weights ps ps.length ≤ chance →
       select_arcade_prize_go chance 0 ps = none) ∧
    (∀ (cfg : Static) (w : World) (user : UserId) (chance : Nat) (p : ArcadePrize),
       select_arcade_prize_go chance 0 (cfg.arcadePrizes w.module.item_id) = some p →
       select_arcade_prize cfg w user chance =
         (Except.ok p,
          { w with inventories := add_inv_item w.inventories user p.item_id (p.qty : Int) })) ∧
    (∀ (cfg : Static) (w : World) (user : UserId) (chance : Nat),
       select_arcade_prize_go chance 0 (cfg.arcadePrizes w.module.item_id) = none →
       select_arcade_prize cfg w user chance = (Except.error Err.prizeTableMisconfigured, w)) ∧
    (select_arcade_prize_go 29 0 prizeTable30_70 = some prize30 ∧
     select_arcade_prize_go 30 0 prizeTable30_70 = some prize70 ∧
     select_arcade_prize_go 99 0 prizeTable30_70 = some prize70 ∧
     select_arcade_prize_go 85 0 prizeTable80 = none) := by
  refine ⟨?_, ?_, ?_, ?_, by decide, by decide, by decide, by decide⟩
  · intro ps chance i h hle hlt
    exact select_go_first_exceeding chance ps 0 i h (by omega) (by omega)
  · intro ps chance hle
    exact select_go_exhausted chance ps 0 (by omega)
  · intro cfg w user chance p hgo
    unfold select_arcade_prize
    rw [hgo]
  · intro cfg w user chance hgo
    unfold select_arcade_prize
    rw [hgo]

/-- Witness for C8 at a concrete input: on the [30, 70] table a draw of
29 selects the first prize (cumulative 30 > 29, first index). -/
theorem select_arcade_prize_first_exceeding_witness :
    select_arcade_prize_go 29 0 prizeTable30_70
      = some (prizeTable30_70.get ⟨0, by decide⟩) :=
  select_arcade_prize_first_exceeding.1 prizeTable30_70 29 0 (by decide)
    (by decide) (by decide)

/-- C4 (amended): `harvest()` raises no error and credits zero yield when
the module requires setup and is not set up, provided a yield
configuration exists for the item; but when no yield configuration exists
at all it raises the `DoesNotExist` lookup error from
`get_yield_item_id` (even though the computed yield is zero) and changes
nothing. -/
theorem harvest_not_set_up_or_missing_config (cfg : Static) (w : World) (tNow : Int) :
    (∀ yi, cfg.harvestYield w.module.item_id = some yi →
       is_setupable cfg w.module → w.module.is_setup ≠ some true →
       (harvest cfg w tNow).1 = Except.ok () ∧
       (harvest cfg w tNow).2.inventories = w.inventories) ∧
    (cfg.harvestYield w.module.item_id = none →
       harvest cfg w tNow = (Except.error Err.doesNotExist, w)) := by
  constructor
  · intro yi hyi hs hns
    have hc : calc_yield_info cfg w.module tNow = some (0, 0, 0) := by
      unfold calc_yield_info
      rw [if_pos ⟨hs, hns⟩]
    unfold harvest
    rw [hc, hyi]
    exact ⟨rfl, add_inv_item_zero _ _ _⟩
  · intro hn
    have hc : calc_yield_info cfg w.module tNow = some (0, 0, 0) := by
      unfold calc_yield_info
      by_cases hg : is_setupable cfg w.module ∧ w.module.is_setup ≠ some true
      · rw [if_pos hg]
      · rw [if_neg hg, hn]
    unfold harvest
    rw [hc, hn]

/-- Static configuration for the missing-yield-config counterexample:
item 1 has no `ModuleHarvestYield` row. -/
def cfgC4 : Static := {
  moduleInfo := fun _ => { editor_type := some ModuleEditorType.GENERIC },
  harvestYield := fun _ => none,
  setupCosts := fun _ => [],
  executionCosts := fun _ => [],
  guestYields := fun _ => [],
  ownerYields := fun _ => [],
  moduleMessages := fun _ => [],
  arcadePrizes := fun _ => [] }

/-- Module row for the missing-yield-config counterexample. -/
def modC4 : ModuleState := {
  item_id := 1, owner := 0, pos_x := none, pos_y := none,
  last_harvest_time := 0, clicks_since_last_harvest := 0, total_clicks := 0,
  is_setup := none, setup_trade := none }

/-- World for the missing-yield-config counterexample. -/
def wC4 : World := {
  module := modC4,
  profiles := fun _ => { available_votes := 0, is_networker := false },
  friendships := [],
  inventories := fun _ _ => 0,
  messages := [] }

/-- Counterexample to C4 as stated: on a module whose item has no yield
configuration, `harvest()` raises (the `get_yield_item_id` lookup fails
with `DoesNotExist`) instead of succeeding with zero yield. -/
theorem harvest_missing_config_raises :
    harvest cfgC4 wC4 0 = (Except.error Err.doesNotExist, wC4) := rfl

/-- Static configuration for the C4 witness: item 1 is setupable (one
setup cost row) and has a yield configuration. -/
def cfgC4w : Static := {
  moduleInfo := fun _ => { editor_type := some ModuleEditorType.GENERIC },
  harvestYield := fun i => if i = 1 then
      some { yield_item_id := 2, yield_per_day := 1, max_yield := 10, clicks_per_yield := 1 }
    else none,
  setupCosts := fun i => if i = 1 then [{ item_id := 7, qty := 3 }] else [],
  executionCosts := fun _ => [],
  guestYields := fun _ => [],
  ownerYields := fun _ => [],
  moduleMessages := fun _ => [],
  arcadePrizes := fun _ => [] }

/-- Module row for the C4 witness: needs setup and is not set up. -/
def modC4w : ModuleState := {
  item_id := 1, owner := 0, pos_x := none, pos_y := none,
  last_harvest_time := 0, clicks_since_last_harvest := 4, total_clicks := 4,
  is_setup := some false, setup_trade := none }

/-- World for the C4 witness. -/
def wC4w : World := {
  module := modC4w,
  profiles := fun _ => { available_votes := 0, is_networker := false },
  friendships := [],
  inventories := fun _ _ => 0,
  messages := [] }

/-- Witness for C4 (amended) at a concrete input: a needs-setup module
with a yield configuration harvests without error and credits nothing. -/
theorem harvest_not_set_up_or_missing_config_witness :
    (harvest cfgC4w wC4w 99).1 = Except.ok () ∧
    (harvest cfgC4w wC4w 99).2.inventories = wC4w.inventories :=
  (harvest_not_set_up_or_missing_config cfgC4w wC4w 99).1
    { yield_item_id := 2, yield_per_day := 1, max_yield := 10, clicks_per_yield := 1 }
    (by decide) (by decide) (by decide)

/-- C2: when a click passes all eligibility checks but execution-cost
removal fails because the visitor lacks the items, the raw `click` has
already mutated state (vote decremented, counters incremented) and raises
the insufficient-inventory error; under the transactional boundary the
whole interaction fails with the error surfaced and the world restored
exactly to its pre-click value. -/
theorem click_exec_cost_failure_rolls_back (cfg : Static) (w : World)
    (clicker : UserId) (rolls : Nat → ℚ) (picks : Nat → Nat)
    (h1 : ¬ clicker = w.module.owner)
    (h2 : 0 < (w.profiles clicker).available_votes)
    (h3 : is_clickable w.module)
    (h4 : (remove_exec_costs clicker (cfg.executionCosts w.module.item_id) w.inventories).1
            = false) :
    (click cfg w clicker rolls picks).1 = Except.error Err.insufficientInventory ∧
    (click cfg w clicker rolls picks).2.module.total_clicks = w.module.total_clicks + 1 ∧
    ((click cfg w clicker rolls picks).2.profiles clicker).available_votes
      = (w.profiles clicker).available_votes - 1 ∧
    click_tx cfg w clicker rolls picks = (Except.error Err.insufficientInventory, w) := by
  unfold click_tx click update_clicks distribute_items
  rw [if_neg h1, if_neg (by omega : ¬ (w.profiles clicker).available_votes ≤ 0),
    if_neg (not_not_intro h3)]
  dsimp only
  rw [saveFix_item_id]
  dsimp only
  rcases hre : remove_exec_costs clicker (cfg.executionCosts w.module.item_id) w.inventories
    with ⟨b, invP⟩
  rw [hre] at h4
  dsimp only at h4
  subst h4
  dsimp only
  refine ⟨rfl, ?_, ?_, rfl⟩
  · rw [saveFix_total_clicks]
  · simp

/-- Static configuration for the C2 witness: clicking item 1 costs 2 of
item 7; no reward tables. -/
def cfgC2 : Static := {
  moduleInfo := fun _ => { editor_type := some ModuleEditorType.GENERIC },
  harvestYield := fun _ => none,
  setupCosts := fun _ => [],
  executionCosts := fun i => if i = 1 then [{ item_id := 7, qty := 2 }] else [],
  guestYields := fun _ => [],
  ownerYields := fun _ => [],
  moduleMessages := fun _ => [],
  arcadePrizes := fun _ => [] }

/-- Module row for the C2 witness. -/
def modC2 : ModuleState := {
  item_id := 1, owner := 0, pos_x := none, pos_y := none,
  last_harvest_time := 0, clicks_since_last_harvest := 0, total_clicks := 0,
  is_setup := none, setup_trade := none }

/-- World for the C2 witness: visitor 1 has one vote but only 1 of cost
item 7 — not the 2 required. -/
def wC2 : World := {
  module := modC2,
  profiles := fun u => if u = 1 then { available_votes := 1, is_networker := false }
    else { available_votes := 0, is_networker := false },
  friendships := [],
  inventories := fun u i => if u = 1 ∧ i = 7 then 1 else 0,
  messages := [] }

/-- Witness for C2 at a concrete input: visitor 1 lacks the execution
cost, the raw click shows the partial mutation, and the transaction
returns the untouched world. -/
theorem click_exec_cost_failure_rolls_back_witness :
    (click cfgC2 wC2 1 (fun _ => 0) (fun _ => 0)).1 = Except.error Err.insufficientInventory ∧
    (click cfgC2 wC2 1 (fun _ => 0) (fun _ => 0)).2.module.total_clicks
      = wC2.module.total_clicks + 1 ∧
    ((click cfgC2 wC2 1 (fun _ => 0) (fun _ => 0)).2.profiles 1).available_votes
      = (wC2.profiles 1).available_votes - 1 ∧
    click_tx cfgC2 wC2 1 (fun _ => 0) (fun _ => 0)
      = (Except.error Err.insufficientInventory, wC2) :=
  click_exec_cost_failure_rolls_back cfgC2 wC2 1 (fun _ => 0) (fun _ => 0)
    (by decide) (by decide) (by decide) (by decide)

/-- The save fix-up establishes the tri-state invariant whenever the
incoming `is_setup` is `none` or `False` on a non-setupable item. -/
theorem setup_invariant_saveFix (cfg : Static) (m : ModuleState)
    (h : ¬ is_setupable cfg m → m.is_setup = none ∨ m.is_setup = some false) :
    SetupInvariant cfg (saveFix cfg m) := by
  intro hn
  rw [is_setupable_saveFix] at hn
  unfold saveFix
  by_cases hc : ¬ is_setupable cfg m ∧ m.is_setup = some false
  · rw [if_pos hc]
  · rw [if_neg hc]
    rcases h hn with h0 | h0
    · exact h0
    · exact absurd ⟨hn, h0⟩ hc

/-- The reward distributor never touches the module row itself. -/
theorem distribute_items_module (cfg : Static) (w : World) (clicker : UserId)
    (rolls : Nat → ℚ) (picks : Nat → Nat) :
    (distribute_items cfg w clicker rolls picks).2.module = w.module := by
  unfold distribute_items
  rcases hre : remove_exec_costs clicker (cfg.executionCosts w.module.item_id) w.inventories
    with ⟨b, invP⟩
  cases b
  · rfl
  · dsimp only
    rcases hrm : roll_messages w rolls picks
        ((cfg.guestYields w.module.item_id).length + (cfg.ownerYields w.module.item_id).length)
        (cfg.moduleMessages w.module.item_id) w.messages with ⟨s, msgs2⟩
    cases s <;> rfl

/-- The click updater preserves the tri-state invariant. -/
theorem update_clicks_invariant (cfg : Static) (w : World) (clicker : UserId)
    (hInv : SetupInvariant cfg w.module) :
    SetupInvariant cfg (update_clicks cfg w clicker).2.module := by
  unfold update_clicks
  split
  · exact hInv
  split
  · exact hInv
  split
  · exact hInv
  · dsimp only
    apply setup_invariant_saveFix
    intro hns
    exact Or.inl (hInv hns)

/-- The click operation preserves the tri-state invariant. -/
theorem click_invariant (cfg : Static) (w : World) (clicker : UserId)
    (rolls : Nat → ℚ) (picks : Nat → Nat)
    (hInv : SetupInvariant cfg w.module) :
    SetupInvariant cfg (click cfg w clicker rolls picks).2.module := by
  unfold click
  rcases hu : update_clicks cfg w clicker with ⟨r1, w1⟩
  have hw1 : SetupInvariant cfg w1.module := by
    have h2 := update_clicks_invariant cfg w clicker hInv
    rw [hu] at h2
    exact h2
  cases r1 with
  | error e => exact hw1
  | ok u =>
    dsimp only
    rcases hd2 : distribute_items cfg w1 clicker rolls picks with ⟨r2, w2⟩
    have hw2 : SetupInvariant cfg w2.module := by
      have h3 := distribute_items_module cfg w1 clicker rolls picks
      rw [hd2] at h3
      rw [show w2.module = w1.module from h3]
      exact hw1
    cases r2 with
    | error e => exact hw2
    | ok gy =>
      dsimp only
      split
      · dsimp only
        apply setup_invariant_saveFix
        intro _
        exact Or.inr rfl
      · exact hw2

/-- The harvest operation preserves the tri-state invariant. -/
theorem harvest_invariant (cfg : Static) (w : World) (tNow : Int)
    (hInv : SetupInvariant cfg w.module) :
    SetupInvariant cfg (harvest cfg w tNow).2.module := by
  unfold harvest
  rcases hc : calc_yield_info cfg w.module tNow with _ | x
  · exact hInv
  · rcases x with ⟨q, tr2, cr2⟩
    dsimp only
    rcases hy : cfg.harvestYield w.module.item_id with _ | yi
    · exact hInv
    · dsimp only
      apply setup_invariant_saveFix
      intro _
      exact Or.inr rfl

/-- The harvest operation never changes which item the module points at. -/
theorem harvest_item_id (cfg : Static) (w : World) (tNow : Int) :
    (harvest cfg w tNow).2.module.item_id = w.module.item_id := by
  unfold harvest
  rcases hc : calc_yield_info cfg w.module tNow with _ | x
  · rfl
  · rcases x with ⟨q, tr2, cr2⟩
    dsimp only
    rcases hy : cfg.harvestYield w.module.item_id with _ | yi
    · rfl
    · dsimp only
      rw [saveFix_item_id]

/-- The teardown operation preserves the tri-state invariant. -/
theorem teardown_invariant (cfg : Static) (w : World)
    (hInv : SetupInvariant cfg w.module) :
    SetupInvariant cfg (teardown cfg w).2.module := by
  unfold teardown
  split
  · exact hInv
  split
  · rcases hst : w.module.setup_trade with _ | trade
    · exact hInv
    · dsimp only
      apply setup_invariant_saveFix
      intro _
      exact Or.inr rfl
  · dsimp only
    apply setup_invariant_saveFix
    intro _
    exact Or.inr rfl

/-- C7: every persisting operation — creation, setup, teardown, harvest,
click — preserves the invariant that a module whose item has no setup
requirement has `is_setup = None` (never `False`); and `harvest` leaves
the module in `NEEDS_SETUP` only if it was already `NEEDS_SETUP` or was
`SET_UP` (assuming `NOT_APPLICABLE` really means the item has no setup
concept), so a no-setup-concept module stays `NOT_APPLICABLE`. -/
theorem setup_state_invariant_preserved (cfg : Static) (op : Op) (w : World)
    (hInv : SetupInvariant cfg w.module) :
    SetupInvariant cfg (stepWorld cfg op w).module ∧
    (∀ tNow, op = Op.harvestOp tNow →
      (w.module.is_setup = none → ¬ is_setupable cfg w.module) →
      ((stepWorld cfg op w).module.is_setup = some false →
        w.module.is_setup = some false ∨ w.module.is_setup = some true)) := by
  cases op with
  | create item owner tNow =>
    refine ⟨?_, fun t ht => Op.noConfusion ht⟩
    exact setup_invariant_saveFix cfg _ (fun _ => Or.inr rfl)
  | setupOp =>
    refine ⟨?_, fun t ht => Op.noConfusion ht⟩
    have hs : (setup cfg w).2 = w := by
      unfold setup
      split <;> rfl
    show SetupInvariant cfg (setup cfg w).2.module
    rw [hs]
    exact hInv
  | teardownOp =>
    exact ⟨teardown_invariant cfg w hInv, fun t ht => Op.noConfusion ht⟩
  | harvestOp tNow =>
    refine ⟨harvest_invariant cfg w tNow hInv, ?_⟩
    intro t ht hNA hpost
    rcases hpre : w.module.is_setup with _ | b
    · have hns : ¬ is_setupable cfg w.module := hNA hpre
      have hns2 : ¬ is_setupable cfg (harvest cfg w tNow).2.module := by
        unfold is_setupable get_info
        rw [harvest_item_id]
        exact hns
      have h0 := harvest_invariant cfg w tNow hInv hns2
      rw [show ((stepWorld cfg (Op.harvestOp tNow) w).module.is_setup
          = (harvest cfg w tNow).2.module.is_setup) from rfl, h0] at hpost
      cases hpost
    · cases b
      · exact Or.inl rfl
      · exact Or.inr rfl
  | clickOp clicker rolls picks =>
    exact ⟨click_invariant cfg w clicker rolls picks hInv, fun t ht => Op.noConfusion ht⟩

/-- Witness for C7 at a concrete input: harvesting the needs-setup module
of the C4 witness world preserves the invariant, and its end state
`NEEDS_SETUP` came from `NEEDS_SETUP`. -/
theorem setup_state_invariant_preserved_witness :
    SetupInvariant cfgC4w (stepWorld cfgC4w (Op.harvestOp 99) wC4w).module ∧
    (∀ tNow, Op.harvestOp 99 = Op.harvestOp tNow →
      (wC4w.module.is_setup = none → ¬ is_setupable cfgC4w wC4w.module) →
      ((stepWorld cfgC4w (Op.harvestOp 99) wC4w).module.is_setup = some false →
        wC4w.module.is_setup = some false ∨ wC4w.module.is_setup = some true)) :=
  setup_state_invariant_preserved cfgC4w (Op.harvestOp 99) wC4w (by decide)
